import Mathlib

/-
Verification of the CSV comparison engine in nates-pytools
(src/csv_diff/csv_diff.py).  The data model and operations below are a
shallow embedding of that file: rows are lists of field strings, Python
sets of row tuples become finsets of rows, and the orchestration logic of
main is modelled as a pure function from the inputs it branches on to an
outcome value.  The line-diff engine the source delegates to (the Python
standard library difflib, which is not part of this repository) is
modelled from the spec, as marked on the individual definitions.
-/

/-- A CSV row: an ordered sequence of field strings, as produced for each
record by the csv reader (csv_diff.py line 92). -/
abbrev Row : Type := List String

namespace CsvDiff

/-- csv_diff.py line 32: the argparse default for the mode flag is the
string "summary" (even though the declared choices are only "literal" and
"entry"). -/
def mode_default : String := "summary"

/-- csv_diff.py line 32: the declared argparse choices for the mode flag. -/
def mode_choices : List String := ["literal", "entry"]

/-- The statistics record built by entry_diff (csv_diff.py lines 152-158). -/
structure Stats where
  file1_total : Nat
  file2_total : Nat
  common_count : Nat
  file1_unique : Nat
  file2_unique : Nat
deriving Repr, DecidableEq

/-- The dictionary returned by entry_diff (csv_diff.py lines 148-159). -/
structure EntryDiffResult where
  file1_only : List Row
  file2_only : List Row
  common : List Row
  stats : Stats
deriving Repr, DecidableEq

/-- Python sorted applied to a set of row tuples: the elements of the set
listed in increasing order.  Python compares tuples of strings
lexicographically, which is exactly the lexicographic linear order on
List String. -/
def sortedRows (s : Finset Row) : List Row :=
  s.sort (· ≤ ·)

/-- csv_diff.py lines 128-159.  Python builds the set of row tuples of each
file (line 141-142, modelled by List.toFinset), takes the two set
differences and the intersection (lines 144-146), returns each of them
sorted (lines 149-151), and reports statistics (lines 152-158): the totals
are the raw lengths of the input row lists, the other three counts are the
cardinalities of the computed sets.  The two path arguments are accepted
but never used, exactly as in the source. -/
def entry_diff (file1_lines file2_lines : List Row)
    (file1_path file2_path : String) : EntryDiffResult :=
  let file1_set : Finset Row := file1_lines.toFinset
  let file2_set : Finset Row := file2_lines.toFinset
  let only_in_file1 := file1_set \ file2_set
  let only_in_file2 := file2_set \ file1_set
  let common := file1_set ∩ file2_set
  { file1_only := sortedRows only_in_file1
    file2_only := sortedRows only_in_file2
    common := sortedRows common
    stats :=
      { file1_total := file1_lines.length
        file2_total := file2_lines.length
        common_count := common.card
        file1_unique := only_in_file1.card
        file2_unique := only_in_file2.card } }

/-- csv_diff.py line 110: for the literal diff a row is serialized back to
a single text line by joining its fields with the comma delimiter, with no
re-quoting. -/
def serializeRow (row : Row) : String :=
  String.intercalate "," row

/-- csv_diff.py lines 110-111: both tables are serialized row by row
before the line diff is taken. -/
def serializeTable (lines : List Row) : List String :=
  lines.map serializeRow

/-- A line-diff operation: an unchanged context line, a removed line
(present only on the left), or an added line (present only on the right).
Modelled from the spec: section 4.2 describes the output of the line diff
the source obtains from the Python standard library difflib, which is not
part of this repository. -/
inductive Op where
  | keep (s : String)
  | del (s : String)
  | ins (s : String)
deriving Repr, DecidableEq

/-- Whether a diff operation is an unchanged context line. -/
def Op.isKeep : Op → Bool
  | .keep _ => true
  | .del _ => false
  | .ins _ => false

/-- Modelled from the spec: section 4.2 prescribes
longest-common-subsequence-based line matching; this is the length of a
longest common subsequence of two line sequences. -/
def lcsLen : List String → List String → Nat
  | [], _ => 0
  | _ :: _, [] => 0
  | x :: xs, y :: ys =>
    if x = y then lcsLen xs ys + 1
    else max (lcsLen xs (y :: ys)) (lcsLen (x :: xs) ys)
termination_by a b => a.length + b.length
decreasing_by all_goals (simp only [List.length_cons]; omega)

/-- Modelled from the spec: section 4.2 — LCS-based line matching,
classifying each line of the two sequences as unchanged context, removed
or added, following a longest common subsequence. -/
def diffOps : List String → List String → List Op
  | [], ys => ys.map Op.ins
  | xs, [] => xs.map Op.del
  | x :: xs, y :: ys =>
    if x = y then Op.keep x :: diffOps xs ys
    else if lcsLen (x :: xs) ys ≤ lcsLen xs (y :: ys) then
      Op.del x :: diffOps xs (y :: ys)
    else
      Op.ins y :: diffOps (x :: xs) ys
termination_by a b => a.length + b.length
decreasing_by all_goals (simp only [List.length_cons]; omega)

/-- Whether a list of diff operations consists of context lines only. -/
def isKeepRun (r : List Op) : Bool :=
  r.all Op.isKeep

/-- Maximal runs of consecutive diff operations with the same
context/change status.  Helper for grouping changes into hunks. -/
def toRuns : List Op → List (List Op)
  | [] => []
  | o :: os =>
    match toRuns os with
    | [] => [[o]]
    | [] :: rs => [o] :: [] :: rs
    | (p :: r) :: rs =>
      if o.isKeep == p.isKeep then (o :: p :: r) :: rs
      else [o] :: (p :: r) :: rs

/-- Modelled from the spec: section 4.2 — builds hunk groups from the runs
following the first one, with the accumulated current group as state.  An
interior context run longer than twice the context width splits two
groups, keeping the context width on each side; a trailing context run is
trimmed to the context width. -/
def chunkAux (n : Nat) (cur : List Op) : List (List Op) → List (List Op)
  | [] => [cur]
  | r :: rs =>
    if isKeepRun r then
      if rs.isEmpty then [cur ++ r.take n]
      else if 2 * n < r.length then
        (cur ++ r.take n) :: chunkAux n (r.drop (r.length - n)) rs
      else chunkAux n (cur ++ r) rs
    else chunkAux n (cur ++ r) rs

/-- Modelled from the spec: section 4.2 — a leading context run is trimmed
to the last n context lines before grouping starts. -/
def chunkRuns (n : Nat) : List (List Op) → List (List Op)
  | [] => []
  | r :: rs =>
    if isKeepRun r then chunkAux n (r.drop (r.length - n)) rs
    else chunkAux n r rs

/-- Modelled from the spec: section 4.2 — hunk groups of the diff with n
context lines on each side of a change; groups that contain no change at
all are dropped, so a diff with no changed line has no group. -/
def buildGroups (n : Nat) (ops : List Op) : List (List Op) :=
  (chunkRuns n (toRuns ops)).filter (fun g => !(isKeepRun g))

/-- Modelled from the spec: section 4.2 — a context line is rendered with
a leading space, a removed line with a leading minus, an added line with a
leading plus. -/
def Op.render : Op → String
  | .keep s => " " ++ s
  | .del s => "-" ++ s
  | .ins s => "+" ++ s

/-- Modelled from the spec: section 4.2 — the unified diff of two line
sequences: two header lines carrying the label strings of the two sides,
then the rendered hunk lines; when there is no hunk the output is the
empty sequence (the headers are only emitted in front of a first hunk). -/
def unified_diff (a b : List String) (fromfile tofile : String) (n : Nat) :
    List String :=
  match buildGroups n (diffOps a b) with
  | [] => []
  | gs => ("--- " ++ fromfile) :: ("+++ " ++ tofile) ::
      (gs.map (fun g => g.map Op.render)).flatten

/-- csv_diff.py lines 95-125: both tables are serialized to comma-joined
lines (lines 110-111) and a unified diff with 3 context lines is taken
(lines 117-124).  The two label strings, built in the source from the file
names and their filesystem modification times (lines 114-121), are taken
here as parameters since they are filesystem inputs; they only feed the
headers. -/
def literal_diff (file1_lines file2_lines : List Row)
    (fromfile tofile : String) : List String :=
  unified_diff (serializeTable file1_lines) (serializeTable file2_lines)
    fromfile tofile 3

/-- A string of n copies of one character, modelling Python string
repetition as in "=" * 60 (csv_diff.py lines 186 and 189). -/
def repeatChar (c : Char) (n : Nat) : String :=
  String.mk (List.replicate n c)

/-- Python format {i:4d} (csv_diff.py lines 222 and 232): the decimal
digits right-aligned in a field of width at least 4. -/
def pad4 (i : Nat) : String :=
  repeatChar ' ' (4 - (toString i).length) ++ toString i

/-- The report header (csv_diff.py lines 182-191).  The generation
timestamp and the two absolute path strings are parameters since they come
from the clock and the filesystem. -/
def reportHeader (timestamp pathA pathB : String) : List String :=
  ["CSV Diff Report",
   "Generated: " ++ timestamp,
   "Tool: CSV Differ by Nathan T. Beene",
   repeatChar '=' 60,
   "File A: " ++ pathA,
   "File B: " ++ pathB,
   repeatChar '=' 60,
   ""]

/-- The statistics block of an entry-mode report (csv_diff.py lines
203-213). -/
def statsBlock (st : Stats) : List String :=
  ["STATISTICS:",
   "  File A total rows: " ++ toString st.file1_total,
   "  File B total rows: " ++ toString st.file2_total,
   "  Common rows: " ++ toString st.common_count,
   "  Unique to File A: " ++ toString st.file1_unique,
   "  Unique to File B: " ++ toString st.file2_unique,
   "",
   repeatChar '-' 60,
   ""]

/-- One labeled, 1-indexed section of unique rows of an entry-mode report
(csv_diff.py lines 215-233); empty when the row list is empty. -/
def entrySection (tag label : String) (rows : List Row) : List String :=
  if rows.isEmpty then []
  else
    ("ROWS ONLY IN FILE " ++ label ++ " (" ++ toString rows.length ++ " rows):")
      :: repeatChar '-' 40
      :: ((rows.enumFrom 1).map
            (fun p => tag ++ " [" ++ pad4 p.1 ++ "] " ++ String.intercalate ", " p.2)
          ++ [""])

/-- The diff value main passes around: a list of lines in literal mode, an
entry result in entry mode.  In the source this is dynamically typed; the
mode string and the payload type always agree on every path through main. -/
inductive DiffValue where
  | lit (lines : List String)
  | ent (result : EntryDiffResult)
deriving Repr, DecidableEq

/-- The body lines of generate_diff_report (csv_diff.py lines 162-238):
header, then for literal mode either a no-differences line or the verbatim
diff lines (lines 193-197), and for entry mode the statistics block, the
two unique-row sections, and, when both unique lists are empty, the final
identical-files line (lines 199-236).  The source dispatches on the mode
string, which on every call site agrees with the payload type matched
here. -/
def generate_diff_report_lines (diff : DiffValue)
    (timestamp pathA pathB : String) : List String :=
  reportHeader timestamp pathA pathB ++
    match diff with
    | .lit d => if d.isEmpty then ["No differences found."] else d
    | .ent d =>
      statsBlock d.stats ++
      entrySection "-" "A" d.file1_only ++
      entrySection "+" "B" d.file2_only ++
      (if d.file1_only.isEmpty && d.file2_only.isEmpty then
        ["No differences found - files are identical."]
      else [])

/-- csv_diff.py line 238: the report is the body lines joined with
newlines. -/
def generate_diff_report (diff : DiffValue)
    (timestamp pathA pathB : String) : String :=
  String.intercalate "\n" (generate_diff_report_lines diff timestamp pathA pathB)

/-- The observable outcome of one run of main, as far as the claims are
concerned: exit on the file-type check, exit on an unreadable input, exit
on an unknown mode, the early no-differences return that writes no file,
or a report written with the given content. -/
inductive Outcome where
  | fileTypeExit (msg : String)
  | readExit
  | unknownModeExit (msg : String)
  | noDifferences
  | reportSaved (report : String)
deriving Repr, DecidableEq

/-- csv_diff.py lines 240-256: the file-type check compares the two path
suffixes and then requires the lowercased shared suffix to be ".csv".
Returns the error message printed before sys.exit(1), or none when both
checks pass. -/
def check_file_types (suffix1 suffix2 : String) : Option String :=
  if suffix1 ≠ suffix2 then
    some ("Error: File types do not match (" ++ suffix1 ++ " vs " ++ suffix2 ++ ")")
  else if suffix1.toLower ≠ ".csv" then
    some ("Error: Unsupported file type " ++ suffix1 ++ ". Only .csv files are supported.")
  else none

/-- Python truthiness of the diff value at csv_diff.py line 332: an empty
list is falsy; the dictionary returned by entry_diff has four keys and is
always truthy. -/
def diff_is_falsy : DiffValue → Bool
  | .lit d => d.isEmpty
  | .ent _ => false

/-- The second disjunct of the emptiness check at csv_diff.py line 332:
in entry mode, both unique-row lists are empty.  The literal payload case
is unreachable there since the conjunct is guarded by mode == "entry". -/
def entry_unique_empty : DiffValue → Bool
  | .ent d => d.file1_only.isEmpty && d.file2_only.isEmpty
  | .lit _ => false

/-- csv_diff.py lines 332-399: after the diff is computed, main returns
early with the plain no-differences status when the diff is empty (line
332), and otherwise generates the report and writes it to the output file
(lines 392-395; args.output is always truthy since its argparse default is
a non-empty path). -/
def main_with_diff (mode : String) (diff : DiffValue)
    (timestamp pathA pathB : String) : Outcome :=
  if diff_is_falsy diff || (mode == "entry" && entry_unique_empty diff) then
    Outcome.noDifferences
  else
    Outcome.reportSaved (generate_diff_report diff timestamp pathA pathB)

/-- csv_diff.py lines 318-335: the mode dispatch of main — entry mode runs
entry_diff, literal mode (or a falsy mode string) runs literal_diff, and
any other mode prints an unknown-mode error and exits — followed by the
emptiness check and report writing modelled by main_with_diff. -/
def main_after_read (mode : String) (file1_lines file2_lines : List Row)
    (fromfile tofile timestamp pathA pathB : String) : Outcome :=
  if mode == "entry" then
    main_with_diff mode (.ent (entry_diff file1_lines file2_lines pathA pathB))
      timestamp pathA pathB
  else if mode == "literal" || mode == "" then
    main_with_diff mode (.lit (literal_diff file1_lines file2_lines fromfile tofile))
      timestamp pathA pathB
  else
    Outcome.unknownModeExit ("Error: Unknown mode " ++ mode)

/-- csv_diff.py lines 259-335: main checks the file types first (line 296)
and only then reads the two CSV files (lines 304-305).  The file contents
are modelled as optional row lists: none stands for a file that cannot be
read, in which case read_csv raises and the process dies.  Because the
type check comes first, a failing type check exits before either content
is ever examined. -/
def main_model (suffix1 suffix2 : String)
    (contents1 contents2 : Option (List Row))
    (mode fromfile tofile timestamp pathA pathB : String) : Outcome :=
  match check_file_types suffix1 suffix2 with
  | some msg => Outcome.fileTypeExit msg
  | none =>
    match contents1, contents2 with
    | some file1_lines, some file2_lines =>
        main_after_read mode file1_lines file2_lines fromfile tofile
          timestamp pathA pathB
    | _, _ => Outcome.readExit

/-- C2 (counterexample): the reported file1_total is the raw row count, so
with the duplicated row table A = [["x"], ["x"]] against B = [["x"]] the
stats read file1_total = 2 but common_count + file1_unique = 1 + 0: the
claimed identity over the reported file1_total fails. -/
theorem c2_counterexample :
    ¬ ((entry_diff [["x"], ["x"]] [["x"]] "p" "q").stats.file1_total
        = (entry_diff [["x"], ["x"]] [["x"]] "p" "q").stats.common_count
          + (entry_diff [["x"], ["x"]] [["x"]] "p" "q").stats.file1_unique) := by
  decide

/-- C2 (amended): file1_total and file2_total are the raw row counts of
the two tables, while common_count, file1_unique and file2_unique are
counts over the distinct-row sets; the invariant total = common + unique
holds for the count of distinct rows of each side, not for the reported
raw totals. -/
theorem c2_amended_stats (A B : List Row) (p1 p2 : String) :
    (entry_diff A B p1 p2).stats.file1_total = A.length ∧
    (entry_diff A B p1 p2).stats.file2_total = B.length ∧
    A.dedup.length
      = (entry_diff A B p1 p2).stats.common_count
        + (entry_diff A B p1 p2).stats.file1_unique ∧
    B.dedup.length
      = (entry_diff A B p1 p2).stats.common_count
        + (entry_diff A B p1 p2).stats.file2_unique := by
  refine ⟨rfl, rfl, ?_, ?_⟩
  · have h := Finset.card_inter_add_card_sdiff A.toFinset B.toFinset
    simp only [entry_diff]
    rw [← List.card_toFinset]
    omega
  · have h := Finset.card_inter_add_card_sdiff B.toFinset A.toFinset
    have h2 : (A.toFinset ∩ B.toFinset).card = (B.toFinset ∩ A.toFinset).card := by
      rw [Finset.inter_comm]
    simp only [entry_diff]
    rw [← List.card_toFinset]
    omega

/-- C3: the unique-row lists of entry_diff are each disjoint from the
common list, and the reported unique count for A equals the number of
distinct rows of A minus the reported size of the intersection of the two
distinct-row sets. -/
theorem c3_entry_diff_disjoint_unique_count (A B : List Row) (p1 p2 : String) :
    List.Disjoint (entry_diff A B p1 p2).file1_only (entry_diff A B p1 p2).common ∧
    List.Disjoint (entry_diff A B p1 p2).file2_only (entry_diff A B p1 p2).common ∧
    (entry_diff A B p1 p2).stats.file1_unique
      = A.dedup.length - (entry_diff A B p1 p2).stats.common_count := by
  refine ⟨?_, ?_, ?_⟩
  · intro r h1 h2
    simp only [entry_diff, sortedRows, Finset.mem_sort, Finset.mem_sdiff,
      Finset.mem_inter] at h1 h2
    exact h1.2 h2.2
  · intro r h1 h2
    simp only [entry_diff, sortedRows, Finset.mem_sort, Finset.mem_sdiff,
      Finset.mem_inter] at h1 h2
    exact h1.2 h2.1
  · have h := Finset.card_inter_add_card_sdiff A.toFinset B.toFinset
    simp only [entry_diff]
    rw [← List.card_toFinset]
    omega

/-- C3 (witness): the disjointness and count identity evaluated on the
concrete tables A = [["a"], ["b"]] and B = [["b"], ["c"]]. -/
theorem c3_witness :
    List.Disjoint (entry_diff [["a"], ["b"]] [["b"], ["c"]] "p" "q").file1_only
      (entry_diff [["a"], ["b"]] [["b"], ["c"]] "p" "q").common ∧
    List.Disjoint (entry_diff [["a"], ["b"]] [["b"], ["c"]] "p" "q").file2_only
      (entry_diff [["a"], ["b"]] [["b"], ["c"]] "p" "q").common ∧
    (entry_diff [["a"], ["b"]] [["b"], ["c"]] "p" "q").stats.file1_unique
      = ([["a"], ["b"]] : List Row).dedup.length
        - (entry_diff [["a"], ["b"]] [["b"], ["c"]] "p" "q").stats.common_count :=
  c3_entry_diff_disjoint_unique_count [["a"], ["b"]] [["b"], ["c"]] "p" "q"

/-- C4: the three row lists returned by entry_diff are sorted in the
lexicographic order over each row's field sequence (the linear order on
List String), so the output is deterministic. -/
theorem c4_entry_diff_lists_sorted (A B : List Row) (p1 p2 : String) :
    List.Sorted (· ≤ ·) (entry_diff A B p1 p2).file1_only ∧
    List.Sorted (· ≤ ·) (entry_diff A B p1 p2).file2_only ∧
    List.Sorted (· ≤ ·) (entry_diff A B p1 p2).common := by
  refine ⟨?_, ?_, ?_⟩ <;>
    (simp only [entry_diff, sortedRows]; exact Finset.sort_sorted _ _)

/-- C4 (witness): sortedness of the three lists evaluated on the concrete
tables A = [["b"], ["a"]] and B = [["a"], ["c"]]. -/
theorem c4_witness :
    List.Sorted (· ≤ ·) (entry_diff [["b"], ["a"]] [["a"], ["c"]] "p" "q").file1_only ∧
    List.Sorted (· ≤ ·) (entry_diff [["b"], ["a"]] [["a"], ["c"]] "p" "q").file2_only ∧
    List.Sorted (· ≤ ·) (entry_diff [["b"], ["a"]] [["a"], ["c"]] "p" "q").common :=
  c4_entry_diff_lists_sorted [["b"], ["a"]] [["a"], ["c"]] "p" "q"

/-- C9: entry_diff depends only on the two row lists; the two file-path
arguments never influence the returned lists or statistics. -/
theorem c9_entry_diff_ignores_paths (A B : List Row) (p1 p2 q1 q2 : String) :
    entry_diff A B p1 p2 = entry_diff A B q1 q2 :=
  rfl

/-- Diffing a line sequence against itself yields only context
operations. -/
theorem diffOps_self (l : List String) : diffOps l l = l.map Op.keep := by
  induction l with
  | nil => simp [diffOps]
  | cons x xs ih => simp [diffOps, ih]

/-- The run decomposition of an operation list concatenates back to the
list itself. -/
theorem flatten_toRuns (l : List Op) : (toRuns l).flatten = l := by
  induction l with
  | nil => rfl
  | cons a l ih =>
    rw [toRuns]
    cases h : toRuns l with
    | nil =>
      rw [h] at ih
      simp only [List.flatten_nil] at ih
      simp [← ih]
    | cons r rs =>
      cases r with
      | nil =>
        rw [h] at ih
        simp only [List.flatten_cons, List.nil_append] at ih
        simp [ih]
      | cons p r2 =>
        rw [h] at ih
        by_cases hk : (a.isKeep == p.isKeep) = true
        · simp only [hk, if_true, List.flatten_cons] at ih ⊢
          simp [ih]
        · simp only [hk, if_false, List.flatten_cons, Bool.false_eq_true] at ih ⊢
          simp [ih]

/-- Every operation of a group produced by chunkAux comes from the
accumulated group or from one of the remaining runs. -/
theorem mem_of_mem_chunkAux (n : Nat) (o : Op) :
    ∀ (runs : List (List Op)) (cur g : List Op),
      g ∈ chunkAux n cur runs → o ∈ g → o ∈ cur ∨ o ∈ runs.flatten := by
  intro runs
  induction runs with
  | nil =>
    intro cur g hg ho
    simp only [chunkAux, List.mem_singleton] at hg
    subst hg
    exact Or.inl ho
  | cons r rs ih =>
    intro cur g hg ho
    rw [chunkAux] at hg
    simp only [List.flatten_cons, List.mem_append]
    by_cases h1 : isKeepRun r = true
    · rw [if_pos h1] at hg
      by_cases h2 : rs.isEmpty = true
      · rw [if_pos h2] at hg
        simp only [List.mem_singleton] at hg
        subst hg
        rcases List.mem_append.mp ho with h | h
        · exact Or.inl h
        · exact Or.inr (Or.inl (List.take_subset _ _ h))
      · rw [if_neg h2] at hg
        by_cases h3 : 2 * n < r.length
        · rw [if_pos h3] at hg
          rcases List.mem_cons.mp hg with hg1 | hg2
          · subst hg1
            rcases List.mem_append.mp ho with h | h
            · exact Or.inl h
            · exact Or.inr (Or.inl (List.take_subset _ _ h))
          · rcases ih _ _ hg2 ho with h | h
            · exact Or.inr (Or.inl (List.drop_subset _ _ h))
            · exact Or.inr (Or.inr h)
        · rw [if_neg h3] at hg
          rcases ih _ _ hg ho with h | h
          · rcases List.mem_append.mp h with h4 | h4
            · exact Or.inl h4
            · exact Or.inr (Or.inl h4)
          · exact Or.inr (Or.inr h)
    · rw [if_neg h1] at hg
      rcases ih _ _ hg ho with h | h
      · rcases List.mem_append.mp h with h4 | h4
        · exact Or.inl h4
        · exact Or.inr (Or.inl h4)
      · exact Or.inr (Or.inr h)

/-- Every operation of a group produced by chunkRuns comes from one of the
runs. -/
theorem mem_of_mem_chunkRuns (n : Nat) (o : Op) (runs : List (List Op))
    (g : List Op) (hg : g ∈ chunkRuns n runs) (ho : o ∈ g) :
    o ∈ runs.flatten := by
  cases runs with
  | nil => simp [chunkRuns] at hg
  | cons r rs =>
    rw [chunkRuns] at hg
    simp only [List.flatten_cons, List.mem_append]
    by_cases h1 : isKeepRun r = true
    · rw [if_pos h1] at hg
      rcases mem_of_mem_chunkAux n o rs _ g hg ho with h | h
      · exact Or.inl (List.drop_subset _ _ h)
      · exact Or.inr h
    · rw [if_neg h1] at hg
      rcases mem_of_mem_chunkAux n o rs r g hg ho with h | h
      · exact Or.inl h
      · exact Or.inr h

/-- When every operation of a diff is a context line, no hunk group is
produced. -/
theorem buildGroups_eq_nil (n : Nat) (ops : List Op)
    (h : ∀ o ∈ ops, o.isKeep = true) : buildGroups n ops = [] := by
  rw [buildGroups, List.filter_eq_nil_iff]
  intro g hg
  have hall : isKeepRun g = true := by
    rw [isKeepRun, List.all_eq_true]
    intro o ho
    have hmem : o ∈ (toRuns ops).flatten := mem_of_mem_chunkRuns n o _ g hg ho
    rw [flatten_toRuns] at hmem
    exact h o hmem
  simp [hall]

/-- The unified diff of a line sequence against itself is empty. -/
theorem unified_diff_self_eq_nil (a : List String) (f1 f2 : String) (n : Nat) :
    unified_diff a a f1 f2 n = [] := by
  have h : buildGroups n (diffOps a a) = [] := by
    apply buildGroups_eq_nil
    rw [diffOps_self]
    intro o ho
    rcases List.mem_map.mp ho with ⟨s, hs, rfl⟩
    rfl
  simp only [unified_diff, h]

/-- When the two tables serialize to the same line sequence, the literal
diff is empty. -/
theorem literal_diff_eq_nil_of_serialize_eq (A B : List Row) (f1 f2 : String)
    (h : serializeTable A = serializeTable B) : literal_diff A B f1 f2 = [] := by
  rw [literal_diff, h]
  exact unified_diff_self_eq_nil _ _ _ _

/-- C5: the literal diff of a table against itself is the empty hunk
sequence; more generally, whenever two tables serialize to identical line
sequences, the literal diff output is the empty sequence. -/
theorem c5_literal_diff_identical_empty :
    (∀ (A : List Row) (f1 f2 : String), literal_diff A A f1 f2 = []) ∧
    (∀ (A B : List Row) (f1 f2 : String),
      serializeTable A = serializeTable B → literal_diff A B f1 f2 = []) :=
  ⟨fun A f1 f2 => literal_diff_eq_nil_of_serialize_eq A A f1 f2 rfl,
   fun A B f1 f2 h => literal_diff_eq_nil_of_serialize_eq A B f1 f2 h⟩

/-- C5 (witness): two concrete tables with equal serializations whose
literal diff evaluates to the empty sequence. -/
theorem c5_witness :
    serializeTable [["a", "b"]] = serializeTable [["a,b"]] ∧
    literal_diff [["a", "b"]] [["a,b"]] "f1" "f2" = [] :=
  ⟨rfl, c5_literal_diff_identical_empty.2 [["a", "b"]] [["a,b"]] "f1" "f2" rfl⟩

/-- C10: row serialization for literal mode is not injective: the table
whose single row is the one field "a,b" and the table whose single row is
the two fields "a" and "b" are unequal tables, yet their literal diff is
the empty sequence, because fields are joined with the delimiter with no
re-quoting before comparison. -/
theorem c10_serialization_not_injective :
    ([["a,b"]] : List Row) ≠ [["a", "b"]] ∧
    literal_diff [["a,b"]] [["a", "b"]] "f1" "f2" = [] :=
  ⟨by decide,
   literal_diff_eq_nil_of_serialize_eq [["a,b"]] [["a", "b"]] "f1" "f2" rfl⟩

/-- C6 (counterexample): for a concrete entry-mode diff result with both
unique lists empty, the report body does not contain the claimed line with
the em-dash; the line the formatter actually emits spells the dash as an
ASCII hyphen (csv_diff.py line 236). -/
theorem c6_counterexample :
    "No differences found — files are identical."
      ∉ generate_diff_report_lines
        (.ent ⟨[], [], [], ⟨1, 1, 1, 0, 0⟩⟩) "t" "pa" "pb" ∧
    "No differences found - files are identical."
      ∈ generate_diff_report_lines
        (.ent ⟨[], [], [], ⟨1, 1, 1, 0, 0⟩⟩) "t" "pa" "pb" := by
  decide

/-- C6 (amended): for every entry-mode diff result whose file1_only and
file2_only lists are both empty, the report body contains the line
"No differences found - files are identical.", written with an ASCII
hyphen rather than the em-dash of the spec. -/
theorem c6_amended_identical_line (d : EntryDiffResult) (ts pA pB : String)
    (h1 : d.file1_only = []) (h2 : d.file2_only = []) :
    "No differences found - files are identical."
      ∈ generate_diff_report_lines (.ent d) ts pA pB := by
  simp [generate_diff_report_lines, entrySection, h1, h2]

/-- C6 (witness): the amended statement evaluated on a concrete empty
entry-mode diff result. -/
theorem c6_witness :
    "No differences found - files are identical."
      ∈ generate_diff_report_lines
        (.ent ⟨[], [], [], ⟨0, 0, 0, 0, 0⟩⟩) "t" "pa" "pb" :=
  c6_amended_identical_line ⟨[], [], [], ⟨0, 0, 0, 0, 0⟩⟩ "t" "pa" "pb" rfl rfl

/-- C1: with the mode flag omitted, the argparse default "summary" reaches
the dispatch in main, which does not fall back to the literal comparator:
for every pair of input tables it hits the unknown-mode branch and exits
with the unknown-mode error, contradicting both the spec and the source
comment that an unknown mode should default to the literal diff. -/
theorem c1_default_mode_exits_unknown (A B : List Row)
    (f1 f2 ts pA pB : String) :
    main_after_read mode_default A B f1 f2 ts pA pB
      = Outcome.unknownModeExit "Error: Unknown mode summary" :=
  rfl

/-- C7: when the diff is empty — the literal hunk sequence has zero
entries, or in entry mode both unique-row lists are empty — main returns
the plain no-differences outcome, so the report-persisting step is never
reached and no report file is written. -/
theorem c7_empty_diff_writes_no_report (mode : String) (A B : List Row)
    (f1 f2 ts pA pB : String) :
    (mode = "entry" →
      (entry_diff A B pA pB).file1_only = [] →
      (entry_diff A B pA pB).file2_only = [] →
      main_after_read mode A B f1 f2 ts pA pB = Outcome.noDifferences) ∧
    ((mode = "literal" ∨ mode = "") →
      literal_diff A B f1 f2 = [] →
      main_after_read mode A B f1 f2 ts pA pB = Outcome.noDifferences) := by
  constructor
  · intro hm h1 h2
    subst hm
    simp [main_after_read, main_with_diff, diff_is_falsy, entry_unique_empty, h1, h2]
  · intro hm hd
    rcases hm with hm | hm <;> subst hm <;>
      simp [main_after_read, main_with_diff, diff_is_falsy, hd]

/-- C7 (witness): identical concrete tables in entry mode produce the
no-differences outcome. -/
theorem c7_witness :
    main_after_read "entry" [["a"]] [["a"]] "f1" "f2" "t" "p" "q"
      = Outcome.noDifferences :=
  (c7_empty_diff_writes_no_report "entry" [["a"]] [["a"]] "f1" "f2" "t" "p" "q").1
    rfl
    (by simp [entry_diff, sortedRows, Finset.sdiff_self, Finset.sort_empty])
    (by simp [entry_diff, sortedRows, Finset.sdiff_self, Finset.sort_empty])

/-- C8: whenever the two path suffixes differ, or the shared suffix does
not lowercase to the supported ".csv" extension, main exits with the
file-type error message; the outcome is the same for every choice of file
contents — including unreadable files, modelled as none — because the
check runs before either input file is opened or read. -/
theorem c8_file_type_checked_before_read (suffix1 suffix2 : String)
    (c1 c2 : Option (List Row)) (mode f1 f2 ts pA pB : String)
    (h : suffix1 ≠ suffix2 ∨ suffix1.toLower ≠ ".csv") :
    ∃ msg, main_model suffix1 suffix2 c1 c2 mode f1 f2 ts pA pB
      = Outcome.fileTypeExit msg := by
  by_cases h12 : suffix1 = suffix2
  · subst h12
    have h2 : suffix1.toLower ≠ ".csv" := by
      rcases h with h | h
      · exact absurd rfl h
      · exact h
    refine ⟨"Error: Unsupported file type " ++ suffix1
      ++ ". Only .csv files are supported.", ?_⟩
    simp [main_model, check_file_types, h2]
  · refine ⟨"Error: File types do not match (" ++ suffix1
      ++ " vs " ++ suffix2 ++ ")", ?_⟩
    simp [main_model, check_file_types, h12]

/-- C8 (witness): mismatched suffixes .csv and .txt with both files
unreadable still exit on the file-type check. -/
theorem c8_witness :
    ((".csv" : String) ≠ ".txt" ∨ (".csv" : String).toLower ≠ ".csv") ∧
    ∃ msg, main_model ".csv" ".txt" none none "literal" "f1" "f2" "t" "p" "q"
      = Outcome.fileTypeExit msg :=
  ⟨Or.inl (by decide),
   c8_file_type_checked_before_read ".csv" ".txt" none none "literal"
     "f1" "f2" "t" "p" "q" (Or.inl (by decide))⟩

end CsvDiff
